import Mathlib

/-!
Verification development for the auto-webhook-odoo event pipeline.

The definitions below are a shallow embedding of the repository's models:
* `update.webhook` (pull event log) from `models/update.py` and
  `models/update_webhook.py`;
* `webhook.event` (push dispatch queue) from `models/webhook_event.py`;
* `webhook.subscriber` (HTTP delivery client) from
  `models/webhook_subscriber.py`;
* the universal interception hook and its debounce cache from
  `models/base_webhook_hook.py`.

Timestamps are naturals (seconds); Python falsy checks on `Char`/`Integer`
fields become emptiness / zero checks; the database is a list of rows in
insertion order, with the monotone id counter made explicit.
-/

namespace AutoWebhook

/-! ### update.webhook rows (pull event log) -/

/-- One row of the `update.webhook` table (fields merged from
`models/update.py` and `models/update_webhook.py`). -/
structure UWEvent where
  id : Nat
  model : String
  recordId : Int
  event : String
  payload : String
  timestamp : Nat
  userId : Nat
  isProcessed : Bool
  processedAt : Option Nat
  isArchived : Bool
  archivedAt : Option Nat
  priority : String
  category : String
deriving DecidableEq, Repr

/-- The `update.webhook` table together with the auto-increment counter. -/
structure UWStore where
  rows : List UWEvent
  nextId : Nat
deriving DecidableEq, Repr

/-- The values dictionary handed to `UpdateWebhook.create`
(`models/update.py`, `create`). -/
structure UWVals where
  model : String
  recordId : Int
  event : String
  payload : String
  userId : Nat
  priority : String
  category : String
deriving DecidableEq, Repr

/-- Python truthiness test `model and record_id and event` used by the guard
`if not model or not record_id or not event: continue` in
`UpdateWebhook.create` (`models/update.py` lines 49-51): a `Char` field is
falsy when empty, an `Integer` field is falsy when `0`. -/
def UWVals.truthy (v : UWVals) : Bool :=
  !(v.model = "") && !(v.recordId = 0) && !(v.event = "")

/-- Row built for an accepted vals dictionary; the store assigns the next
monotone id. -/
def mkRow (id : Nat) (v : UWVals) (now : Nat) : UWEvent :=
  { id := id
    model := v.model
    recordId := v.recordId
    event := v.event
    payload := v.payload
    timestamp := now
    userId := v.userId
    isProcessed := false
    processedAt := none
    isArchived := false
    archivedAt := none
    priority := v.priority
    category := v.category }

/-- `('model','=',model), ('record_id','=',record_id)` search domain of
`UpdateWebhook.create` (`models/update.py` lines 54-57). -/
def samePair (v : UWVals) (r : UWEvent) : Bool :=
  r.model = v.model && r.recordId = v.recordId

/-- Shallow embedding of `UpdateWebhook.create` for a single vals dictionary
(`models/update.py` lines 43-79):
1. skip vals whose `model`, `record_id` or `event` is falsy;
2. if the new event is `create` and a `write` exists for the same
   `(model, record_id)` pair, delete all those writes, then insert;
3. if the new event is `write` and a `create` exists for the pair, insert
   nothing;
4. otherwise insert a fresh row with the next monotone id. -/
def createOne (s : UWStore) (v : UWVals) (now : Nat) : UWStore :=
  if !v.truthy then s
  else
    let existing := s.rows.filter (samePair v)
    let existingEvents := existing.map (·.event)
    if v.event = "create" && existingEvents.contains "write" then
      { rows :=
          (s.rows.filter fun r => !(samePair v r && r.event = "write"))
            ++ [mkRow s.nextId v now]
        nextId := s.nextId + 1 }
    else if v.event = "write" && existingEvents.contains "create" then s
    else
      { rows := s.rows ++ [mkRow s.nextId v now], nextId := s.nextId + 1 }

/-- `UpdateWebhook.create` over a whole `vals_list`: the per-vals loop of
`models/update.py`, each iteration observing the effect of the previous
ones. -/
def createMulti (s : UWStore) (valsList : List (UWVals × Nat)) : UWStore :=
  valsList.foldl (fun acc vn => createOne acc vn.1 vn.2) s

/-- A `write` row for the given `(model, record_id)` pair. -/
def writeRowFor (v : UWVals) (r : UWEvent) : Bool :=
  samePair v r && r.event = "write"

/-- Store well-formedness: rows are in strictly increasing id order (the
insertion order of the auto-increment primary key) and every id is below the
counter. -/
def UWStore.WF (s : UWStore) : Prop :=
  s.rows.Pairwise (fun a b => a.id < b.id) ∧ ∀ r ∈ s.rows, r.id < s.nextId

/-! ### pull_events (`models/update_webhook.py` lines 346-430) -/

/-- `if models: domain.append(('model','in',models))` — the filter is only
applied when the argument is truthy (non-`None` and non-empty). -/
def modelsFilter (models : Option (List String)) (r : UWEvent) : Bool :=
  match models with
  | none => true
  | some ms => if ms.isEmpty then true else ms.contains r.model

/-- `if priority: domain.append(('priority','=',priority))` — applied only
when the argument is truthy (non-`None`, non-empty string). -/
def priorityFilter (priority : Option String) (r : UWEvent) : Bool :=
  match priority with
  | none => true
  | some p => if p = "" then true else r.priority == p

/-- The search domain of `pull_events`:
`id > last_event_id ∧ ¬is_processed ∧ ¬is_archived` plus the optional model
and priority filters. -/
def pullMatch (lastEventId : Nat) (models : Option (List String))
    (priority : Option String) (r : UWEvent) : Bool :=
  decide (lastEventId < r.id) && !r.isProcessed && !r.isArchived
    && modelsFilter models r && priorityFilter priority r

/-- Result dictionary of `pull_events`. -/
structure PullResult where
  events : List UWEvent
  lastId : Nat
  hasMore : Bool
  count : Nat
deriving DecidableEq, Repr

/-- Shallow embedding of `UpdateWebhook.pull_events`
(`models/update_webhook.py` lines 346-430): select rows matching the domain
ordered by `id asc` (storage order under `UWStore.WF`), capped by `limit`
(Odoo treats `limit = 0` as no limit); `last_id` is the id of the last
returned event, echoing `last_event_id` for an empty batch; the `has_more`
re-count (lines 391-395) uses only
`id > last_id ∧ ¬is_processed ∧ ¬is_archived`, without the model/priority
filters. -/
def pull_events (s : UWStore) (lastEventId : Nat) (limit : Nat)
    (models : Option (List String)) (priority : Option String) : PullResult :=
  let matching := s.rows.filter (pullMatch lastEventId models priority)
  let events := if limit = 0 then matching else matching.take limit
  match events.getLast? with
  | some e =>
      { events := events
        lastId := e.id
        hasMore := s.rows.any fun r =>
          decide (e.id < r.id) && !r.isProcessed && !r.isArchived
        count := events.length }
  | none =>
      { events := events
        lastId := lastEventId
        hasMore := false
        count := events.length }

/-- Shallow embedding of `UpdateWebhook.mark_batch_as_processed`
(`models/update_webhook.py` lines 445-463): every listed row that exists gets
`is_processed = true, processed_at = now`; other rows are untouched. -/
def mark_batch_as_processed (s : UWStore) (eventIds : List Nat) (now : Nat) :
    UWStore :=
  { s with
    rows := s.rows.map fun r =>
      if eventIds.contains r.id then
        { r with isProcessed := true, processedAt := some now }
      else r }

/-! ### webhook.event dispatch records (`models/webhook_event.py`) -/

/-- One `webhook.event` dispatch record, with the fields the state machine
reads and writes.  `hasSubscriber` / `subscriberEnabled` stand for the
`subscriber_id` many2one and its `enabled` flag. -/
structure WEvent where
  id : Nat
  model : String
  recordId : Int
  event : String
  status : String
  retryCount : Nat
  maxRetries : Nat
  nextRetryAt : Option Nat
  errorMessage : Option String
  errorType : Option String
  sentAt : Option Nat
  responseCode : Option Nat
  processingTime : Option Nat
  hasSubscriber : Bool
  subscriberEnabled : Bool
  priority : String
  timestamp : Nat
deriving DecidableEq, Repr

/-- One `webhook.retry` dead-letter row (`mark_as_dead`,
`models/webhook_event.py` lines 430-437). -/
structure DeadRow where
  eventId : Nat
  originalError : Option String
  failedAt : Nat
  retryAttempts : Nat
  resolutionStatus : String
deriving DecidableEq, Repr

/-- One `webhook.audit` row, as created by `process_event` /
`schedule_retry`. -/
structure AuditRow where
  eventId : Nat
  action : String
  timestamp : Nat
deriving DecidableEq, Repr

/-- A dispatch record together with the append-only dead-letter and audit
tables it writes to. -/
structure DState where
  ev : WEvent
  deadLetters : List DeadRow
  audits : List AuditRow
deriving DecidableEq, Repr

/-- Default of the `max_retries` field (`models/webhook_event.py` line 102),
which `process_retries` reads back as `self._fields['max_retries'].default`. -/
def maxRetriesDefault : Nat := 5

/-- `base_delay = 60  # 60 seconds` (`models/webhook_event.py` line 396). -/
def base_delay : Nat := 60

/-- Shallow embedding of `WebhookEvent.mark_as_dead`
(`models/webhook_event.py` lines 420-447): set `status='dead'`, record the
error, and create exactly one `webhook.retry` dead-letter row. -/
def mark_as_dead (st : DState) (errorMessage : Option String) (now : Nat) :
    DState :=
  { ev := { st.ev with
      status := "dead"
      errorMessage := errorMessage
      errorType := some "max_retries_exceeded" }
    deadLetters := st.deadLetters ++
      [{ eventId := st.ev.id
         originalError := errorMessage
         failedAt := now
         retryAttempts := st.ev.retryCount
         resolutionStatus := "pending" }]
    audits := st.audits }

/-- Shallow embedding of `WebhookEvent.schedule_retry`
(`models/webhook_event.py` lines 387-418): when the retry budget is
exhausted, delegate to `mark_as_dead`; otherwise compute the backoff delay
`base_delay * 2 ** retry_count` from the pre-increment count, bump
`retry_count`, set `status='failed'` and `next_retry_at`, and append a
`retried` audit row. -/
def schedule_retry (st : DState) (errorMessage : Option String) (now : Nat) :
    DState :=
  if st.ev.maxRetries ≤ st.ev.retryCount then mark_as_dead st errorMessage now
  else
    let delaySeconds := base_delay * 2 ^ st.ev.retryCount
    { ev := { st.ev with
        status := "failed"
        retryCount := st.ev.retryCount + 1
        nextRetryAt := some (now + delaySeconds)
        errorMessage := errorMessage
        errorType := some "retry_scheduled" }
      deadLetters := st.deadLetters
      audits := st.audits ++ [{ eventId := st.ev.id, action := "retried",
                                timestamp := now }] }

/-! ### HTTP delivery client (`models/webhook_subscriber.py`) -/

/-- Outcome of the underlying `requests.post` call: a response with a status
code, or one of the exception kinds `send_event_data` catches. -/
inductive HttpOutcome where
  | response (statusCode : Nat)
  | timeout
  | connectionError
  | otherError (message : String)
deriving DecidableEq, Repr

/-- The dictionary `send_event_data` returns
(`models/webhook_subscriber.py` lines 253-287): a response maps to
`success = status_code < 400`; a timeout to `(false, 408)`; a connection
error to `(false, 503)`; any other exception to `(false, 500)`.  No delivery
failure raises out of `send_event_data`. -/
def sendResult : HttpOutcome → Bool × Nat
  | .response code => (decide (code < 400), code)
  | .timeout => (false, 408)
  | .connectionError => (false, 503)
  | .otherError _ => (false, 500)

/-- Shallow embedding of `WebhookEvent.process_event`
(`models/webhook_event.py` lines 332-385).  A record not in
`{pending, failed}` is returned untouched with `False`.  Otherwise the
record moves to `processing`; a missing or disabled subscriber raises, is
caught, and goes to `schedule_retry`; in every other case — including
delivery outcomes whose `success` flag is `False` — the record is written to
`status='sent'` with `sent_at`, `response_code`, `processing_time`, cleared
error fields, and a `sent` audit row.  `startTime`/`endTime` are the
timestamps around the send. -/
def process_event (st : DState) (outcome : HttpOutcome)
    (startTime endTime : Nat) : Bool × DState :=
  if !(st.ev.status = "pending" || st.ev.status = "failed") then (false, st)
  else
    let st₁ : DState := { st with ev := { st.ev with status := "processing" } }
    if !st₁.ev.hasSubscriber then
      (false, schedule_retry st₁ (some "No subscriber configured for this event") endTime)
    else if !st₁.ev.subscriberEnabled then
      (false, schedule_retry st₁ (some "Subscriber is disabled") endTime)
    else
      let r := sendResult outcome
      (true,
        { st₁ with
          ev := { st₁.ev with
            status := "sent"
            sentAt := some endTime
            responseCode := some r.2
            processingTime := some ((endTime - startTime) * 1000)
            errorMessage := none
            errorType := none }
          audits := st₁.audits ++
            [{ eventId := st.ev.id, action := "sent", timestamp := endTime }] })

/-- Selection domain of `WebhookEvent.process_pending_events`
(`models/webhook_event.py` lines 452-454): `status = 'pending'`. -/
def pendingSelect (e : WEvent) : Bool :=
  e.status == "pending"

/-- Selection domain of `WebhookEvent.process_retries`
(`models/webhook_event.py` lines 483-487):
`status='failed' ∧ next_retry_at <= now ∧ retry_count < max_retries default`
(a null `next_retry_at` never satisfies `<=`). -/
def retrySelect (e : WEvent) (now : Nat) : Bool :=
  e.status == "failed"
    && (match e.nextRetryAt with
        | some t => decide (t ≤ now)
        | none => false)
    && decide (e.retryCount < maxRetriesDefault)

/-! ### Outbound request shape (`models/webhook_subscriber.py` lines 200-245) -/

/-- The subscriber fields `send_event_data` reads.  `authToken` / `apiKey`
model `Char` fields, falsy when empty; `customHeaders` is the parsed
`json.loads(self.custom_headers)` object (`none` when the field is unset or
the JSON is invalid, in which case the merge is skipped). -/
structure Subscriber where
  endpointUrl : String
  authType : String
  authToken : String
  apiKey : String
  apiKeyHeader : String
  enabled : Bool
  timeout : Nat
  verifySsl : Bool
  customHeaders : Option (List (String × String))
deriving DecidableEq, Repr

/-- Python dict assignment `d[k] = v`: replace the value when the key is
present, otherwise append the binding. -/
def setKey (hs : List (String × String)) (k v : String) :
    List (String × String) :=
  if hs.any (fun p => p.1 == k) then
    hs.map fun p => if p.1 == k then (k, v) else p
  else hs ++ [(k, v)]

/-- Dict lookup: the value bound to `k`, if any. -/
def hlookup (hs : List (String × String)) (k : String) : Option String :=
  (hs.find? (fun p => p.1 == k)).map (·.2)

/-- The headers dict of `send_event_data` before custom headers are merged
(`models/webhook_subscriber.py` lines 217-228): `Content-Type` and
`User-Agent`, then the authentication header selected by `auth_type`
(skipped when the credential field is falsy). -/
def baseHeaders (sub : Subscriber) : List (String × String) :=
  let h := [("Content-Type", "application/json"),
            ("User-Agent", "Odoo-Webhook/1.0")]
  if sub.authType = "bearer" && !(sub.authToken = "") then
    setKey h "Authorization" ("Bearer " ++ sub.authToken)
  else if sub.authType = "api_key" && !(sub.apiKey = "") then
    setKey h sub.apiKeyHeader sub.apiKey
  else if sub.authType = "basic" && !(sub.authToken = "") then
    setKey h "Authorization" ("Basic " ++ sub.authToken)
  else h

/-- `headers.update(custom)` (`models/webhook_subscriber.py` lines 230-236):
every custom binding is written over the headers dict, later bindings
winning; an unparsable custom-headers field leaves the dict unchanged. -/
def mergeCustom (h : List (String × String))
    (customHeaders : Option (List (String × String))) :
    List (String × String) :=
  match customHeaders with
  | some custom => custom.foldl (fun acc kv => setKey acc kv.1 kv.2) h
  | none => h

/-- The outbound request `requests.post(self.endpoint_url, json=payload,
headers=headers, timeout=self.timeout, verify=self.verify_ssl)` builds
(`models/webhook_subscriber.py` lines 239-245).  `jsonBody` is the payload
serialized as the JSON request body. -/
structure OutRequest (α : Type) where
  httpMethod : String
  url : String
  jsonBody : α
  headers : List (String × String)
  timeoutSecs : Nat
  verifySsl : Bool
deriving DecidableEq, Repr

/-- The request `send_event_data` issues for a payload. -/
def buildRequest {α : Type} (sub : Subscriber) (payload : α) : OutRequest α :=
  { httpMethod := "POST"
    url := sub.endpointUrl
    jsonBody := payload
    headers := mergeCustom (baseHeaders sub) sub.customHeaders
    timeoutSecs := sub.timeout
    verifySsl := sub.verifySsl }

/-! ### Debounce cache (`models/base_webhook_hook.py` lines 344-396) -/

/-- `_DEBOUNCE_SECONDS = 3` (`models/base_webhook_hook.py` line 50). -/
def DEBOUNCE_SECONDS : Nat := 3

/-- The in-process `_webhook_debounce_cache` map `{key → last fire time}`;
all accesses in the source happen under `_webhook_debounce_lock`. -/
structure DebCache where
  entries : List (String × Nat)
deriving DecidableEq, Repr

/-- Debounce cache key (`models/base_webhook_hook.py` lines 368-371):
`create` and `write` share the `create_write` bucket; any other operation
(`unlink`) gets its own bucket. -/
def debounceKey (modelName : String) (recordId : Int) (op : String) : String :=
  if op = "create" || op = "write" then
    modelName ++ ":" ++ toString recordId ++ ":create_write"
  else
    modelName ++ ":" ++ toString recordId ++ ":" ++ op

/-- Opportunistic eviction (`models/base_webhook_hook.py` lines 377-382):
drop entries with `current_time - v > 60`. -/
def evictOld (entries : List (String × Nat)) (now : Nat) :
    List (String × Nat) :=
  entries.filter fun kv => !(decide (60 < now - kv.2))

/-- `cache.get(cache_key, 0)`. -/
def lastFire (entries : List (String × Nat)) (key : String) : Nat :=
  match entries.find? (fun kv => kv.1 == key) with
  | some kv => kv.2
  | none => 0

/-- `cache[cache_key] = current_time`: dict assignment on the debounce
map. -/
def setTime (entries : List (String × Nat)) (k : String) (v : Nat) :
    List (String × Nat) :=
  if entries.any (fun kv => kv.1 == k) then
    entries.map fun kv => if kv.1 == k then (k, v) else kv
  else entries ++ [(k, v)]

/-- Shallow embedding of `BaseWebhookHook._webhook_should_trigger` with the
window taken as a parameter (the source reads the class attribute
`_DEBOUNCE_SECONDS`): evict stale entries, then drop the trigger iff the
last fire time of the key is less than `window` seconds old, else record
`now` under the key and allow it. -/
def shouldTriggerW (cache : DebCache) (window : Nat) (modelName : String)
    (recordId : Int) (op : String) (now : Nat) : Bool × DebCache :=
  let key := debounceKey modelName recordId op
  let cleaned := evictOld cache.entries now
  if now - lastFire cleaned key < window then (false, ⟨cleaned⟩)
  else (true, ⟨setTime cleaned key now⟩)

/-- `_webhook_should_trigger` at the source's window constant. -/
def webhook_should_trigger (cache : DebCache) (modelName : String)
    (recordId : Int) (op : String) (now : Nat) : Bool × DebCache :=
  shouldTriggerW cache DEBOUNCE_SECONDS modelName recordId op now

/-! ### Universal interception hook (`models/base_webhook_hook.py` lines 56-124)

Each CRUD override first performs the host operation (`super()`), then runs
the webhook trigger path inside `try/except Exception: _logger.error(...)`.
The trigger path — tracking lookup, debounce, rule matching, payload
building, event-log append — is a parameter of type `Except String σ`: its
value is either the state it would produce or the exception it would raise.
The returned triple is (host CRUD result, resulting webhook state, logged
errors). -/

/-- `BaseWebhookHook.create` (`models/base_webhook_hook.py` lines 56-75):
the records created by `super().create` are always returned; the trigger
path runs only when the `webhook_disabled` context flag is off, and an
exception inside it is logged, never raised. -/
def hookCreate {α : Type} (superResult : α) (webhookDisabled : Bool)
    (store : UWStore) (trigger : Except String UWStore) :
    α × UWStore × List String :=
  if webhookDisabled then (superResult, store, [])
  else
    match trigger with
    | .ok store' => (superResult, store', [])
    | .error e =>
        (superResult, store, ["Webhook trigger failed for create: " ++ e])

/-- `BaseWebhookHook.write` (`models/base_webhook_hook.py` lines 77-102):
the result of `super().write` is always returned; the trigger path is
skipped under `skip_webhook_write` or `webhook_disabled`, and an exception
inside it is logged, never raised. -/
def hookWrite {α : Type} (superResult : α) (skipWebhookWrite : Bool)
    (webhookDisabled : Bool) (store : UWStore)
    (trigger : Except String UWStore) : α × UWStore × List String :=
  if skipWebhookWrite then (superResult, store, [])
  else if webhookDisabled then (superResult, store, [])
  else
    match trigger with
    | .ok store' => (superResult, store', [])
    | .error e =>
        (superResult, store, ["Webhook trigger failed for write: " ++ e])

/-- A record snapshot captured by `_webhook_capture_for_unlink` before the
rows are deleted. -/
structure CapturedRecord where
  id : Int
  model : String
  payload : String
deriving DecidableEq, Repr

/-- `BaseWebhookHook.unlink` (`models/base_webhook_hook.py` lines 104-124):
the pre-deletion capture runs in its own `try/except` (a failure yields an
empty capture list); `super().unlink` is performed; the trigger path over
the captured data runs in another `try/except`.  The host result is always
returned and no exception from either webhook step escapes. -/
def hookUnlink {α : Type} (superResult : α) (store : UWStore)
    (capture : Except String (List CapturedRecord))
    (trigger : List CapturedRecord → Except String UWStore) :
    α × UWStore × List String :=
  let captured := match capture with
    | .ok ds => (ds, ([] : List String))
    | .error e => ([], ["Failed to capture data for unlink webhook: " ++ e])
  match trigger captured.1 with
  | .ok store' => (superResult, store', captured.2)
  | .error e =>
      (superResult, store, captured.2 ++ ["Webhook trigger failed for unlink: " ++ e])

/-- One debounced write invocation, composing
`_webhook_should_trigger` (`BaseWebhookHook.write` lines 90-98) with the
event-log append the trigger path performs
(`webhook.rule.trigger_event` → `update.webhook.create_event` →
`UpdateWebhook.create`): when the debounce allows the trigger, the write
event is appended to the log; when it drops it, the log is untouched. -/
def writeInvocation (cache : DebCache) (store : UWStore) (v : UWVals)
    (now : Nat) : DebCache × UWStore :=
  let fire := webhook_should_trigger cache v.model v.recordId "write" now
  if fire.1 then (fire.2, createOne store v now) else (fire.2, store)

/-! ### Concrete sample data (used by witnesses and counterexamples) -/

/-- A fresh dispatch record: `status='pending'`, `retry_count=0`,
`max_retries=5` (the field defaults), with an enabled subscriber. -/
def sampleWEvent : WEvent :=
  { id := 1, model := "sale.order", recordId := 42, event := "create",
    status := "pending", retryCount := 0, maxRetries := 5,
    nextRetryAt := none, errorMessage := none, errorType := none,
    sentAt := none, responseCode := none, processingTime := none,
    hasSubscriber := true, subscriberEnabled := true, priority := "high",
    timestamp := 0 }

/-- A fresh dispatch state with empty dead-letter and audit tables. -/
def sampleDState : DState :=
  { ev := sampleWEvent, deadLetters := [], audits := [] }

/-- Sample vals dictionary for the pull log. -/
def sampleVals (m : String) (rid : Int) (e : String) : UWVals :=
  { model := m, recordId := rid, event := e, payload := "{}",
    userId := 1, priority := "medium", category := "business" }

/-- An unprocessed, unarchived pull-log row. -/
def sampleRow (i : Nat) (m : String) : UWEvent :=
  { id := i, model := m, recordId := 1, event := "write", payload := "{}",
    timestamp := 0, userId := 1, isProcessed := false, processedAt := none,
    isArchived := false, archivedAt := none, priority := "medium",
    category := "business" }

/-- Empty pull-log store. -/
def emptyStore : UWStore := { rows := [], nextId := 1 }

/-- Store with unprocessed events 1..7 (scenario 4 of the spec). -/
def sevenStore : UWStore :=
  { rows := [sampleRow 1 "a", sampleRow 2 "a", sampleRow 3 "a",
             sampleRow 4 "a", sampleRow 5 "a", sampleRow 6 "a",
             sampleRow 7 "a"]
    nextId := 8 }

/-- Store with one unprocessed row of model `a` and one of model `b`: the
row of model `b` makes the unfiltered `has_more` re-count fire even when the
pull is filtered to model `a`. -/
def twoModelStore : UWStore :=
  { rows := [sampleRow 1 "a", sampleRow 2 "b"], nextId := 3 }

/-- Bearer-authenticated subscriber whose custom headers carry their own
`Authorization` value. -/
def subBearerOverride : Subscriber :=
  { endpointUrl := "https://bridge.example/webhook", authType := "bearer",
    authToken := "tok", apiKey := "", apiKeyHeader := "X-API-Key",
    enabled := true, timeout := 30, verifySsl := true,
    customHeaders := some [("Authorization", "Basic intruder")] }

/-! ## Theorems -/

/-- Helper: `schedule_retry` keeps `retry_count ≤ max_retries`. -/
theorem schedule_retry_inv (st : DState) (err : Option String) (now : Nat)
    (h : st.ev.retryCount ≤ st.ev.maxRetries) :
    (schedule_retry st err now).ev.retryCount ≤
      (schedule_retry st err now).ev.maxRetries := by
  unfold schedule_retry mark_as_dead
  split
  · simpa using h
  · rename_i hlt
    simp only []
    omega

/-- C5: when `schedule_retry` runs with `retry_count < max_retries`, it
increments `retry_count`, sets `status='failed'`, and schedules
`next_retry_at = now + base_delay * 2 ^ (retry_count - 1)` seconds with
`base_delay = 60`, the exponent taken on the post-increment count — the
delay on the k-th failure (pre-increment count `k`) is `60 * 2 ^ k`, i.e.
60, 120, 240, 480, ... seconds. -/
theorem C5_backoff_schedule (st : DState) (err : Option String) (now : Nat)
    (h : st.ev.retryCount < st.ev.maxRetries) :
    (schedule_retry st err now).ev.retryCount = st.ev.retryCount + 1 ∧
    (schedule_retry st err now).ev.status = "failed" ∧
    (schedule_retry st err now).ev.nextRetryAt =
      some (now + base_delay *
        2 ^ ((schedule_retry st err now).ev.retryCount - 1)) ∧
    base_delay = 60 := by
  have hn : ¬ st.ev.maxRetries ≤ st.ev.retryCount := by omega
  unfold schedule_retry
  simp [hn, base_delay]

/-- C5 witness: the first four retries of a fresh record are scheduled 60,
then 120, 240, 480 seconds out. -/
theorem C5_backoff_schedule_witness :
    sampleDState.ev.retryCount < sampleDState.ev.maxRetries ∧
    ((schedule_retry sampleDState (some "boom") 0).ev.retryCount =
        sampleDState.ev.retryCount + 1 ∧
     (schedule_retry sampleDState (some "boom") 0).ev.status = "failed" ∧
     (schedule_retry sampleDState (some "boom") 0).ev.nextRetryAt =
       some (0 + base_delay *
         2 ^ ((schedule_retry sampleDState (some "boom") 0).ev.retryCount - 1)) ∧
     base_delay = 60) ∧
    (schedule_retry sampleDState (some "boom") 0).ev.nextRetryAt = some 60 ∧
    (schedule_retry (schedule_retry sampleDState (some "boom") 0)
        (some "boom") 60).ev.nextRetryAt = some 180 :=
  ⟨by decide, C5_backoff_schedule sampleDState (some "boom") 0 (by decide),
   by decide, by decide⟩

/-- C2: dispatch termination — `retry_count ≤ max_retries` is preserved by
every state-machine operation; a failure arriving with
`retry_count = max_retries` moves the record to `status='dead'` and appends
exactly one dead-letter row; and a dead record is selected by neither the
pending sweep nor the retry sweep, and `process_event` returns it
untouched. -/
theorem C2_dispatch_termination (st : DState) (err : Option String)
    (now : Nat) (outcome : HttpOutcome) (t0 t1 : Nat) :
    (st.ev.retryCount ≤ st.ev.maxRetries →
      (schedule_retry st err now).ev.retryCount ≤
          (schedule_retry st err now).ev.maxRetries ∧
      (mark_as_dead st err now).ev.retryCount ≤
          (mark_as_dead st err now).ev.maxRetries ∧
      (process_event st outcome t0 t1).2.ev.retryCount ≤
          (process_event st outcome t0 t1).2.ev.maxRetries) ∧
    (st.ev.retryCount = st.ev.maxRetries →
      (schedule_retry st err now).ev.status = "dead" ∧
      (schedule_retry st err now).deadLetters =
        st.deadLetters ++
          [{ eventId := st.ev.id, originalError := err, failedAt := now,
             retryAttempts := st.ev.retryCount,
             resolutionStatus := "pending" }]) ∧
    (st.ev.status = "dead" →
      pendingSelect st.ev = false ∧ retrySelect st.ev now = false ∧
      process_event st outcome t0 t1 = (false, st)) := by
  refine ⟨fun h => ⟨schedule_retry_inv st err now h, by simpa [mark_as_dead] using h, ?_⟩,
          fun h => ?_, fun h => ?_⟩
  · unfold process_event
    split
    · simpa using h
    · dsimp only
      split
      · exact schedule_retry_inv _ _ t1 h
      · split
        · exact schedule_retry_inv _ _ t1 h
        · simpa using h
  · have hge : st.ev.maxRetries ≤ st.ev.retryCount := by omega
    unfold schedule_retry mark_as_dead
    simp [hge]
  · have hs : ¬ (st.ev.status = "pending" || st.ev.status = "failed") = true := by
      simp [h]
    refine ⟨by simp [pendingSelect, h], by simp [retrySelect, h], ?_⟩
    unfold process_event
    simp [hs]

/-- C2 witness: a record failing with `retry_count = max_retries = 5` goes
dead and gains exactly one dead-letter row. -/
theorem C2_dispatch_termination_witness :
    ({ sampleDState with
        ev := { sampleWEvent with retryCount := 5, status := "failed" } } :
      DState).ev.retryCount =
      ({ sampleDState with
          ev := { sampleWEvent with retryCount := 5, status := "failed" } } :
        DState).ev.maxRetries ∧
    (schedule_retry
        { sampleDState with
          ev := { sampleWEvent with retryCount := 5, status := "failed" } }
        (some "boom") 9).ev.status = "dead" ∧
    (schedule_retry
        { sampleDState with
          ev := { sampleWEvent with retryCount := 5, status := "failed" } }
        (some "boom") 9).deadLetters =
      [] ++
        [{ eventId := 1, originalError := some "boom", failedAt := 9,
           retryAttempts := 5, resolutionStatus := "pending" }] :=
  ⟨by decide,
   ((C2_dispatch_termination
      { sampleDState with
        ev := { sampleWEvent with retryCount := 5, status := "failed" } }
      (some "boom") 9 (.response 500) 0 0).2.1 (by decide)).1,
   ((C2_dispatch_termination
      { sampleDState with
        ev := { sampleWEvent with retryCount := 5, status := "failed" } }
      (some "boom") 9 (.response 500) 0 0).2.1 (by decide)).2⟩

/-- C3: the claim says a record is marked `sent` only on a 2xx delivery and
that any delivery failure goes through `schedule_retry`.  The code disagrees:
`send_event_data` converts HTTP error statuses, timeouts and connection
errors into a returned dictionary with `success=False` instead of raising,
and `process_event` never inspects that flag — so a delivery that came back
HTTP 500 is still written to `status='sent'` with `response_code=500`, a
`sent` audit row, and no retry scheduled. -/
theorem C3_failed_delivery_marked_sent :
    (sendResult (.response 500)).1 = false ∧
    (process_event sampleDState (.response 500) 10 11).1 = true ∧
    (process_event sampleDState (.response 500) 10 11).2.ev.status = "sent" ∧
    (process_event sampleDState (.response 500) 10 11).2.ev.responseCode =
      some 500 ∧
    (process_event sampleDState (.response 500) 10 11).2.ev.sentAt = some 11 ∧
    (process_event sampleDState (.response 500) 10 11).2.ev.retryCount = 0 ∧
    (process_event sampleDState (.response 500) 10 11).2.ev.nextRetryAt =
      none ∧
    (process_event sampleDState (.response 500) 10 11).2.deadLetters = [] ∧
    (process_event sampleDState (.response 500) 10 11).2.audits =
      [{ eventId := 1, action := "sent", timestamp := 11 }] := by
  decide

/-- Helper: the `event_type in existing_events` membership test of
`UpdateWebhook.create`, as an existential over the store. -/
theorem existing_contains_iff (s : UWStore) (v : UWVals) (e : String) :
    ((s.rows.filter (samePair v)).map (·.event)).contains e = true ↔
      ∃ r ∈ s.rows, samePair v r = true ∧ r.event = e := by
  simp only [List.contains_eq_any_beq, List.any_eq_true, List.mem_map,
    List.mem_filter, beq_iff_eq]
  constructor
  · rintro ⟨x, ⟨r, ⟨hr, hp⟩, rfl⟩, he⟩
    exact ⟨r, hr, hp, he.symm⟩
  · rintro ⟨r, hr, hp, he⟩
    exact ⟨r.event, ⟨r, ⟨hr, hp⟩, rfl⟩, he.symm⟩

/-- Helper: appending a truthy `create` yields the old rows minus the pair's
write rows, with the new `create` row at the end. -/
theorem createOne_create_rows (s : UWStore) (v : UWVals) (now : Nat)
    (ht : v.truthy = true) (he : v.event = "create") :
    (createOne s v now).rows =
      (s.rows.filter fun r => !writeRowFor v r) ++ [mkRow s.nextId v now] := by
  unfold createOne
  rw [ht]
  by_cases hc :
      ((s.rows.filter (samePair v)).map (·.event)).contains "write" = true
  · simp only [he, hc, Bool.not_true, Bool.false_eq_true, if_false,
      decide_True, Bool.true_and, if_true]
    rfl
  · have hw : ∀ r ∈ s.rows, (!writeRowFor v r) = true := by
      intro r hr
      cases hb : writeRowFor v r with
      | false => rfl
      | true =>
        exfalso
        apply hc
        apply (existing_contains_iff s v "write").2
        unfold writeRowFor at hb
        rw [Bool.and_eq_true, decide_eq_true_eq] at hb
        exact ⟨r, hr, hb.1, hb.2⟩
    have hfilter : (s.rows.filter fun r => !writeRowFor v r) = s.rows :=
      List.filter_eq_self.2 hw
    have hne : ¬ ("create" : String) = "write" := by decide
    simp only [he, hc, Bool.not_true, Bool.false_eq_true, if_false,
      decide_True, Bool.true_and, Bool.and_false, if_false, hne,
      decide_False, Bool.false_and, hfilter]

/-- Helper: after a truthy `create` append, no write row for the pair is
left in the log. -/
theorem no_write_after_create (s : UWStore) (v : UWVals) (now : Nat)
    (ht : v.truthy = true) (he : v.event = "create") :
    ∀ r ∈ (createOne s v now).rows, writeRowFor v r = false := by
  intro r hr
  rw [createOne_create_rows s v now ht he] at hr
  rcases List.mem_append.1 hr with hmem | hmem
  · have := List.of_mem_filter hmem
    simpa using this
  · have hr' : r = mkRow s.nextId v now := by simpa using hmem
    subst hr'
    simp [writeRowFor, mkRow, he]

/-- C1: supersession in the pull event log (`UpdateWebhook.create`,
`models/update.py`).  Appending a `create` removes every prior `write` for
the `(model, record_id)` pair and appends the create; appending a `write`
while a `create` for the pair exists inserts nothing; an `unlink` is always
appended; and after any append sequence whose last element is a `create`
for the pair, no `write` row for that pair remains. -/
theorem C1_log_supersession (s : UWStore) (v : UWVals) (now : Nat)
    (valsList : List (UWVals × Nat)) :
    (v.truthy = true → v.event = "create" →
      (createOne s v now).rows =
        (s.rows.filter fun r => !writeRowFor v r) ++ [mkRow s.nextId v now]) ∧
    (v.truthy = true → v.event = "write" →
      (∃ r ∈ s.rows, samePair v r = true ∧ r.event = "create") →
      createOne s v now = s) ∧
    (v.truthy = true → v.event = "unlink" →
      (createOne s v now).rows = s.rows ++ [mkRow s.nextId v now]) ∧
    (valsList.getLast? = some (v, now) → v.truthy = true →
      v.event = "create" →
      ∀ r ∈ (createMulti s valsList).rows, writeRowFor v r = false) := by
  refine ⟨createOne_create_rows s v now, ?_, ?_, ?_⟩
  · intro ht he hex
    have hc : ((s.rows.filter (samePair v)).map (·.event)).contains
        "create" = true := (existing_contains_iff s v "create").2 hex
    have h1 : decide (("write" : String) = "create") = false := by decide
    have h2 : decide (("write" : String) = "write") = true := by decide
    unfold createOne
    rw [ht]
    simp only [Bool.not_true, Bool.false_eq_true, if_false, he, hc, h1, h2,
      Bool.false_and, Bool.true_and, if_true]
    simp
  · intro ht he
    have h1 : ¬ ("unlink" : String) = "create" := by decide
    have h2 : ¬ ("unlink" : String) = "write" := by decide
    unfold createOne
    rw [ht]
    simp [he, h1, h2]
  · intro hlast ht he r hr
    rcases List.getLast?_eq_some_iff.1 hlast with ⟨ys, rfl⟩
    rw [createMulti, List.foldl_append] at hr
    exact no_write_after_create _ v now ht he r hr

/-- C1 witness: starting from three writes for `(a, 99)`, appending a
`create` leaves a log whose only rows for the pair are the final create;
and a `write` after a `create` for `(a, 42)` is a no-op. -/
theorem C1_log_supersession_witness :
    (sampleVals "a" 99 "create").truthy = true ∧
    (createMulti emptyStore
        [(sampleVals "a" 99 "write", 1), (sampleVals "a" 99 "write", 2),
         (sampleVals "a" 99 "write", 3), (sampleVals "a" 99 "create", 4)]).rows.all
      (fun r => !writeRowFor (sampleVals "a" 99 "create") r) = true ∧
    createOne (createOne emptyStore (sampleVals "a" 42 "create") 1)
        (sampleVals "a" 42 "write") 2 =
      createOne emptyStore (sampleVals "a" 42 "create") 1 := by
  refine ⟨by decide, ?_, ?_⟩
  · rw [List.all_eq_true]
    intro r hr
    have := (C1_log_supersession emptyStore (sampleVals "a" 99 "create") 4
        [(sampleVals "a" 99 "write", 1), (sampleVals "a" 99 "write", 2),
         (sampleVals "a" 99 "write", 3),
         (sampleVals "a" 99 "create", 4)]).2.2.2
      (by decide) (by decide) (by decide) r hr
    simp [this]
  · exact (C1_log_supersession
        (createOne emptyStore (sampleVals "a" 42 "create") 1)
        (sampleVals "a" 42 "write") 2 []).2.1 (by decide) (by decide)
      (by decide)

/-- C10: no pull-log row ever carries `record_id = 0` — the append path
silently skips vals whose `model`, `record_id` or `event` is falsy, so an
append with `record_id = 0` leaves the store unchanged and reports nothing,
the absence of zero record ids is preserved by every append (mirroring the
`CHECK(record_id != 0)` constraint), and the synthetic `record_id = -1` is
accepted. -/
theorem C10_record_id_nonzero (s : UWStore) (v : UWVals) (now : Nat) :
    ((∀ r ∈ s.rows, r.recordId ≠ 0) →
      ∀ r ∈ (createOne s v now).rows, r.recordId ≠ 0) ∧
    (v.recordId = 0 → createOne s v now = s) ∧
    (createOne emptyStore (sampleVals "res.partner" (-1) "create") 0).rows =
      [mkRow 1 (sampleVals "res.partner" (-1) "create") 0] := by
  refine ⟨?_, ?_, by decide⟩
  · intro h0 r hr
    by_cases ht : v.truthy = true
    · have hrid : v.recordId ≠ 0 := fun hz => by
        simp [UWVals.truthy, hz] at ht
      unfold createOne at hr
      rw [ht] at hr
      simp only [Bool.not_true, Bool.false_eq_true, if_false] at hr
      split at hr
      · rcases List.mem_append.1 hr with hmem | hmem
        · exact h0 r (List.mem_of_mem_filter hmem)
        · have : r = mkRow s.nextId v now := by simpa using hmem
          subst this
          exact hrid
      · split at hr
        · exact h0 r hr
        · rcases List.mem_append.1 hr with hmem | hmem
          · exact h0 r hmem
          · have : r = mkRow s.nextId v now := by simpa using hmem
            subst this
            exact hrid
    · unfold createOne at hr
      rw [Bool.not_eq_true] at ht
      rw [ht] at hr
      simp only [Bool.not_false, if_true] at hr
      exact h0 r hr
  · intro hz
    have ht : v.truthy = false := by
      simp [UWVals.truthy, hz]
    unfold createOne
    rw [ht]
    simp

/-- C10 witness: appending `(model='res.partner', record_id=0, create)` to
the empty store inserts nothing. -/
theorem C10_record_id_nonzero_witness :
    (sampleVals "res.partner" 0 "create").recordId = 0 ∧
    createOne emptyStore (sampleVals "res.partner" 0 "create") 7 =
      emptyStore :=
  ⟨by decide,
   (C10_record_id_nonzero emptyStore (sampleVals "res.partner" 0 "create")
      7).2.1 (by decide)⟩

/-- C8: acknowledgement is idempotent — `mark_batch_as_processed` sets
`is_processed=true, processed_at=now` on every listed row that exists,
leaves unlisted rows untouched, and applying it twice with the same id list
leaves the store exactly as one application does. -/
theorem C8_ack_idempotent (s : UWStore) (eventIds : List Nat) (now : Nat) :
    mark_batch_as_processed (mark_batch_as_processed s eventIds now)
        eventIds now = mark_batch_as_processed s eventIds now ∧
    (∀ r ∈ (mark_batch_as_processed s eventIds now).rows,
      eventIds.contains r.id = true →
        r.isProcessed = true ∧ r.processedAt = some now) ∧
    (∀ r ∈ s.rows, eventIds.contains r.id = false →
      r ∈ (mark_batch_as_processed s eventIds now).rows) := by
  refine ⟨?_, ?_, ?_⟩
  · unfold mark_batch_as_processed
    simp only [List.map_map]
    congr 1
    apply List.map_congr_left
    intro r _
    cases h : eventIds.contains r.id with
    | false =>
      have h' : ¬ (r.id ∈ eventIds) := by simpa using h
      simp [Function.comp, h']
    | true =>
      have h' : r.id ∈ eventIds := by simpa using h
      simp [Function.comp, h']
  · intro r hr hc
    unfold mark_batch_as_processed at hr
    simp only [List.mem_map] at hr
    obtain ⟨r0, _, rfl⟩ := hr
    cases h : eventIds.contains r0.id with
    | false =>
      have h' : ¬ (r0.id ∈ eventIds) := by simpa using h
      simp only [h, Bool.false_eq_true, if_false] at hc
    | true =>
      have h' : r0.id ∈ eventIds := by simpa using h
      simp [h']
  · intro r hr hc
    unfold mark_batch_as_processed
    simp only [List.mem_map]
    have hc' : ¬ (r.id ∈ eventIds) := by simpa using hc
    exact ⟨r, hr, by simp [hc']⟩

/-- C8 witness: acknowledging `[3,4,5]` twice on the seven-event store
equals acknowledging once. -/
theorem C8_ack_idempotent_witness :
    mark_batch_as_processed (mark_batch_as_processed sevenStore [3, 4, 5] 50)
        [3, 4, 5] 50 = mark_batch_as_processed sevenStore [3, 4, 5] 50 :=
  (C8_ack_idempotent sevenStore [3, 4, 5] 50).1

/-- C6: the interception hook never fails the host transaction — each of the
three CRUD overrides returns the host's own result unchanged for every
outcome of the webhook trigger path, and an exception raised anywhere in
that path (or in the unlink pre-capture) is converted into a logged error
message with the event-log store left as it was. -/
theorem C6_hook_failsafe {α : Type} (superResult : α) (dis skip : Bool)
    (store : UWStore) (trigger : Except String UWStore)
    (capture : Except String (List CapturedRecord))
    (utrigger : List CapturedRecord → Except String UWStore) :
    (hookCreate superResult dis store trigger).1 = superResult ∧
    (hookWrite superResult skip dis store trigger).1 = superResult ∧
    (hookUnlink superResult store capture utrigger).1 = superResult ∧
    (∀ e, trigger = .error e → dis = false →
      hookCreate superResult dis store trigger =
        (superResult, store, ["Webhook trigger failed for create: " ++ e]) ∧
      (skip = false → hookWrite superResult skip dis store trigger =
        (superResult, store,
          ["Webhook trigger failed for write: " ++ e]))) ∧
    (∀ e ds, capture = .ok ds → utrigger ds = .error e →
      hookUnlink superResult store capture utrigger =
        (superResult, store,
          ["Webhook trigger failed for unlink: " ++ e])) := by
  refine ⟨?_, ?_, ?_, ?_, ?_⟩
  · cases dis <;> cases trigger <;> rfl
  · cases skip <;> cases dis <;> cases trigger <;> rfl
  · cases capture with
    | ok ds => cases h : utrigger ds <;> simp [hookUnlink, h]
    | error e => cases h : utrigger [] <;> simp [hookUnlink, h]
  · rintro e rfl rfl
    exact ⟨rfl, fun hs => by subst hs; rfl⟩
  · rintro e ds rfl hu
    simp [hookUnlink, hu]

/-- C6 witness: with a trigger path that raises `boom`, the create hook and
the unlink hook still hand back the host result, logging the failure. -/
theorem C6_hook_failsafe_witness :
    (hookCreate (7 : Nat) false emptyStore (Except.error "boom")).1 = 7 ∧
    hookCreate (7 : Nat) false emptyStore (Except.error "boom") =
      (7, emptyStore, ["Webhook trigger failed for create: " ++ "boom"]) ∧
    hookUnlink (7 : Nat) emptyStore (Except.ok [])
        (fun _ => Except.error "boom") =
      (7, emptyStore, ["Webhook trigger failed for unlink: " ++ "boom"]) :=
  ⟨(C6_hook_failsafe 7 false false emptyStore (Except.error "boom")
      (Except.ok []) (fun _ => Except.error "boom")).1,
   ((C6_hook_failsafe 7 false false emptyStore (Except.error "boom")
      (Except.ok []) (fun _ => Except.error "boom")).2.2.2.1 "boom" rfl
      rfl).1,
   (C6_hook_failsafe 7 false false emptyStore (Except.error "boom")
      (Except.ok []) (fun _ => Except.error "boom")).2.2.2.2 "boom" [] rfl
      rfl⟩

/-- Helper: the binding written by `setTime` is in the resulting map. -/
theorem setTime_self_mem (l : List (String × Nat)) (k : String) (v : Nat) :
    (k, v) ∈ setTime l k v := by
  unfold setTime
  split
  · rename_i h
    rw [List.any_eq_true] at h
    obtain ⟨kv, hkv, hb⟩ := h
    rw [List.mem_map]
    exact ⟨kv, hkv, by simp only [hb, if_true]⟩
  · simp

/-- Helper: after `setTime l k v`, every binding of key `k` has value `v`. -/
theorem setTime_mem_val (l : List (String × Nat)) (k : String) (v : Nat) :
    ∀ kv ∈ setTime l k v, kv.1 = k → kv.2 = v := by
  intro kv hkv hk
  unfold setTime at hkv
  split at hkv
  · rw [List.mem_map] at hkv
    obtain ⟨kv', _, rfl⟩ := hkv
    by_cases hb : (kv'.1 == k) = true
    · simp only [hb, if_true]
    · rw [Bool.not_eq_true] at hb
      rw [hb] at hk ⊢
      simp only [Bool.false_eq_true, if_false] at hk ⊢
      exact absurd hk (by simpa using hb)
  · rename_i h
    rcases List.mem_append.1 hkv with hm | hm
    · exfalso
      rw [Bool.not_eq_true, List.any_eq_false] at h
      exact absurd (by simpa using hk) (by simpa using h kv hm)
    · have : kv = (k, v) := by simpa using hm
      rw [this]

/-- Helper: every binding in `setTime l k v` is the new one or an old one. -/
theorem setTime_mem (l : List (String × Nat)) (k : String) (v : Nat) :
    ∀ kv ∈ setTime l k v, kv = (k, v) ∨ kv ∈ l := by
  intro kv hkv
  unfold setTime at hkv
  split at hkv
  · rw [List.mem_map] at hkv
    obtain ⟨kv', hkv', rfl⟩ := hkv
    by_cases hb : (kv'.1 == k) = true
    · left
      simp only [hb, if_true]
    · right
      rw [Bool.not_eq_true] at hb
      simpa only [hb, Bool.false_eq_true, if_false] using hkv'
  · rcases List.mem_append.1 hkv with hm | hm
    · exact Or.inr hm
    · exact Or.inl (by simpa using hm)

/-- Helper: the map lookup returns `t` as soon as some binding of the key
exists and every binding of the key carries `t`. -/
theorem lastFire_eq (l : List (String × Nat)) (k : String) (t : Nat)
    (hex : ∃ kv ∈ l, kv.1 = k) (hval : ∀ kv ∈ l, kv.1 = k → kv.2 = t) :
    lastFire l k = t := by
  unfold lastFire
  have hsome : (l.find? (fun kv => kv.1 == k)).isSome := by
    rw [List.find?_isSome]
    obtain ⟨kv, hm, hk⟩ := hex
    exact ⟨kv, hm, by simpa using hk⟩
  obtain ⟨kv, hfind⟩ := Option.isSome_iff_exists.1 hsome
  rw [hfind]
  have hp := List.find?_some hfind
  have hm := List.mem_of_find?_eq_some hfind
  exact hval kv hm (by simpa using hp)

/-- Helper: a truthy `write` appended while no `create` row exists for the
pair adds exactly the new row at the end. -/
theorem createOne_write_no_create (store : UWStore) (v : UWVals) (now : Nat)
    (ht : v.truthy = true) (he : v.event = "write")
    (hnc : ∀ r ∈ store.rows, ¬(samePair v r = true ∧ r.event = "create")) :
    (createOne store v now).rows =
      store.rows ++ [mkRow store.nextId v now] := by
  have hc : ((store.rows.filter (samePair v)).map (·.event)).contains
      "create" = false := by
    cases hb : ((store.rows.filter (samePair v)).map (·.event)).contains
        "create" with
    | false => rfl
    | true =>
      obtain ⟨r, hr, hp, hev⟩ := (existing_contains_iff store v "create").1 hb
      exact absurd ⟨hp, hev⟩ (hnc r hr)
  have h1 : decide (("write" : String) = "create") = false := by decide
  unfold createOne
  rw [ht]
  simp only [Bool.not_true, Bool.false_eq_true, if_false, he, h1, hc,
    Bool.false_and, Bool.and_false, if_false]

/-- C7: debounce scope and window — `create` and `write` share one debounce
key per `(model, record_id)` while `unlink` has its own; a trigger is
dropped iff the key's last recorded fire time is less than the window
(`_DEBOUNCE_SECONDS = 3`) old, otherwise the current time is recorded;
entries older than 60 seconds are evicted under the lock; and two identical
write invocations within the window append exactly one event-log row. -/
theorem C7_debounce (cache : DebCache) (m : String) (rid : Int)
    (op : String) (now t1 t2 : Nat) (store : UWStore) (v : UWVals) :
    debounceKey m rid "create" = debounceKey m rid "write" ∧
    debounceKey m rid "unlink" ≠ debounceKey m rid "create" ∧
    ((webhook_should_trigger cache m rid op now).1 = false ↔
      now - lastFire (evictOld cache.entries now) (debounceKey m rid op) <
        DEBOUNCE_SECONDS) ∧
    (∀ kv ∈ (webhook_should_trigger cache m rid op now).2.entries,
      now - kv.2 ≤ 60) ∧
    (lastFire (evictOld cache.entries t1)
          (debounceKey v.model v.recordId "write") + DEBOUNCE_SECONDS ≤ t1 →
      t1 ≤ t2 → t2 - t1 < DEBOUNCE_SECONDS → v.truthy = true →
      v.event = "write" →
      (∀ r ∈ store.rows, ¬(samePair v r = true ∧ r.event = "create")) →
      ((writeInvocation (writeInvocation cache store v t1).1
          (writeInvocation cache store v t1).2 v t2).2).rows.length =
        store.rows.length + 1) := by
  refine ⟨rfl, ?_, ?_, ?_, ?_⟩
  · intro h
    have e1 : debounceKey m rid "unlink" =
        m ++ ":" ++ toString rid ++ ":" ++ "unlink" := by
      unfold debounceKey
      rw [if_neg (by decide)]
    have e2 : debounceKey m rid "create" =
        m ++ ":" ++ toString rid ++ ":create_write" := by
      unfold debounceKey
      rw [if_pos (by decide)]
    rw [e1, e2] at h
    have hlen := congrArg String.length h
    have l1 : ("unlink" : String).length = 6 := rfl
    have l2 : (":create_write" : String).length = 13 := rfl
    have l3 : (":" : String).length = 1 := rfl
    simp only [String.length_append, l1, l2, l3] at hlen
    omega
  · unfold webhook_should_trigger shouldTriggerW
    dsimp only
    split
    · rename_i hlt
      simpa using hlt
    · rename_i hlt
      simpa using hlt
  · intro kv hkv
    unfold webhook_should_trigger shouldTriggerW at hkv
    dsimp only at hkv
    split at hkv
    · dsimp only at hkv
      have := (List.mem_filter.1 hkv).2
      simp only [Bool.not_eq_true', decide_eq_false_iff_not] at this
      omega
    · dsimp only at hkv
      rcases setTime_mem _ _ _ kv hkv with rfl | hm
      · simp
      · have := (List.mem_filter.1 hm).2
        simp only [Bool.not_eq_true', decide_eq_false_iff_not] at this
        omega
  · intro hlast h12 hwin ht he hnc
    set key := debounceKey v.model v.recordId "write" with hkey
    have hfire1 : ¬ (t1 - lastFire (evictOld cache.entries t1) key <
        DEBOUNCE_SECONDS) := by omega
    have hw1 : writeInvocation cache store v t1 =
        (⟨setTime (evictOld cache.entries t1) key t1⟩,
         createOne store v t1) := by
      unfold writeInvocation webhook_should_trigger shouldTriggerW
      dsimp only
      rw [if_neg hfire1]
      rfl
    rw [hw1]
    have hnotold : ¬ (60 < t2 - t1) := by
      have : DEBOUNCE_SECONDS = 3 := rfl
      omega
    have hmem2 : (key, t1) ∈
        evictOld (setTime (evictOld cache.entries t1) key t1) t2 := by
      unfold evictOld
      rw [List.mem_filter]
      exact ⟨setTime_self_mem _ _ _, by simpa using hnotold⟩
    have hval2 : ∀ kv ∈
        evictOld (setTime (evictOld cache.entries t1) key t1) t2,
        kv.1 = key → kv.2 = t1 := by
      intro kv hkv hk
      exact setTime_mem_val _ _ _ kv (List.mem_filter.1 hkv).1 hk
    have hlast2 : lastFire
        (evictOld (setTime (evictOld cache.entries t1) key t1) t2) key =
          t1 :=
      lastFire_eq _ _ _ ⟨(key, t1), hmem2, rfl⟩ hval2
    have hdrop : (t2 - lastFire
        (evictOld (setTime (evictOld cache.entries t1) key t1) t2) key <
          DEBOUNCE_SECONDS) := by
      rw [hlast2]
      exact hwin
    have hw2 : writeInvocation ⟨setTime (evictOld cache.entries t1) key t1⟩
        (createOne store v t1) v t2 =
        (⟨evictOld (setTime (evictOld cache.entries t1) key t1) t2⟩,
         createOne store v t1) := by
      unfold writeInvocation webhook_should_trigger shouldTriggerW
      dsimp only
      rw [if_pos hdrop]
      rfl
    rw [hw2]
    simp only [createOne_write_no_create store v t1 ht he hnc,
      List.length_append, List.length_cons, List.length_nil]

/-- C7 witness: with an empty debounce cache, two identical writes for
`(sale.order, 17)` at t=100 and t=102 (window 3s) append exactly one row to
the empty log. -/
theorem C7_debounce_witness :
    lastFire (evictOld (⟨[]⟩ : DebCache).entries 100)
        (debounceKey "sale.order" 17 "write") + DEBOUNCE_SECONDS ≤ 100 ∧
    (100 : Nat) ≤ 102 ∧ 102 - 100 < DEBOUNCE_SECONDS ∧
    ((writeInvocation (writeInvocation ⟨[]⟩ emptyStore
          (sampleVals "sale.order" 17 "write") 100).1
        (writeInvocation ⟨[]⟩ emptyStore
          (sampleVals "sale.order" 17 "write") 100).2
        (sampleVals "sale.order" 17 "write") 102).2).rows.length =
      emptyStore.rows.length + 1 :=
  ⟨by decide, by decide, by decide,
   (C7_debounce ⟨[]⟩ "sale.order" 17 "write" 0 100 102 emptyStore
      (sampleVals "sale.order" 17 "write")).2.2.2.2 (by decide) (by decide)
     (by decide) (by decide) (by decide) (by decide)⟩

/-- Helper: looking up a cons cell. -/
theorem hlookup_cons (p : String × String) (t : List (String × String))
    (k : String) :
    hlookup (p :: t) k =
      if (p.1 == k) = true then some p.2 else hlookup t k := by
  unfold hlookup
  by_cases hp : (p.1 == k) = true
  · simp [List.find?_cons, hp]
  · rw [Bool.not_eq_true] at hp
    simp [List.find?_cons, hp]

/-- Helper: dict assignment makes the key map to the assigned value. -/
theorem hlookup_setKey_self (l : List (String × String)) (k v : String) :
    hlookup (setKey l k v) k = some v := by
  unfold setKey
  split
  · rename_i h
    induction l with
    | nil => simp at h
    | cons p t ih =>
      rw [List.any_cons] at h
      rw [List.map_cons]
      by_cases hp : (p.1 == k) = true
      · rw [if_pos hp, hlookup_cons]
        simp
      · rw [Bool.not_eq_true] at hp
        rw [hp] at h
        simp only [Bool.false_or] at h
        rw [if_neg (by simp [hp]), hlookup_cons, if_neg (by simp [hp])]
        exact ih h
  · rename_i h
    rw [Bool.not_eq_true, List.any_eq_false] at h
    have hnone : l.find? (fun q => q.1 == k) = none := by
      rw [List.find?_eq_none]
      intro q hq
      simpa using h q hq
    unfold hlookup
    rw [List.find?_append, hnone]
    simp

/-- Helper: replacing the bindings of key `k` leaves other keys
unchanged. -/
theorem hlookup_map_other (t : List (String × String)) (k v k' : String)
    (hbk : ((k : String) == k') = false) :
    hlookup (t.map fun p => if (p.1 == k) = true then (k, v) else p) k' =
      hlookup t k' := by
  induction t with
  | nil => rfl
  | cons p t ih =>
    rw [List.map_cons]
    by_cases hp : (p.1 == k) = true
    · have hpk : p.1 = k := by simpa using hp
      rw [if_pos hp, hlookup_cons, hlookup_cons, if_neg (by simp [hbk]),
        if_neg (by simp [hpk, hbk])]
      exact ih
    · rw [Bool.not_eq_true] at hp
      rw [if_neg (by simp [hp]), hlookup_cons, hlookup_cons]
      by_cases hp' : (p.1 == k') = true
      · rw [if_pos hp', if_pos hp']
      · rw [Bool.not_eq_true] at hp'
        rw [if_neg (by simp [hp']), if_neg (by simp [hp'])]
        exact ih

/-- Helper: dict assignment leaves other keys unchanged. -/
theorem hlookup_setKey_other (l : List (String × String)) (k v k' : String)
    (hne : k ≠ k') :
    hlookup (setKey l k v) k' = hlookup l k' := by
  have hbk : ((k : String) == k') = false := by simpa using hne
  unfold setKey
  split
  · exact hlookup_map_other l k v k' hbk
  · unfold hlookup
    rw [List.find?_append]
    have : List.find? (fun q => q.1 == k') [(k, v)] = none := by
      simp [List.find?_cons, hbk]
    rw [this]
    simp

/-- Helper: folding assignments whose keys differ from `k` does not change
the binding of `k`. -/
theorem hlookup_foldl_notmem (custom : List (String × String))
    (h : List (String × String)) (k : String)
    (hk : ∀ kv ∈ custom, kv.1 ≠ k) :
    hlookup (custom.foldl (fun acc kv => setKey acc kv.1 kv.2) h) k =
      hlookup h k := by
  induction custom generalizing h with
  | nil => rfl
  | cons q t ih =>
    rw [List.foldl_cons,
      ih (setKey h q.1 q.2) fun kv hkv => hk kv (List.mem_cons_of_mem _ hkv)]
    exact hlookup_setKey_other h q.1 q.2 k (hk q (List.mem_cons_self q t))

/-- Helper: after merging a duplicate-free custom-header dict, each custom
binding wins. -/
theorem hlookup_foldl_override (custom : List (String × String))
    (h : List (String × String)) (k v : String)
    (hnd : (custom.map Prod.fst).Nodup) (hmem : (k, v) ∈ custom) :
    hlookup (custom.foldl (fun acc kv => setKey acc kv.1 kv.2) h) k =
      some v := by
  induction custom generalizing h with
  | nil => cases hmem
  | cons q t ih =>
    rw [List.map_cons, List.nodup_cons] at hnd
    rw [List.foldl_cons]
    rcases List.mem_cons.1 hmem with hq | hm
    · subst hq
      have hk : ∀ kv ∈ t, kv.1 ≠ k := by
        intro kv hkv hkk
        exact hnd.1 (List.mem_map.2 ⟨kv, hkv, hkk⟩)
      rw [hlookup_foldl_notmem t _ k hk]
      exact hlookup_setKey_self h k v
    · exact ih (setKey h q.1 q.2) hnd.2 hm

/-- C9 counterexample: for a bearer subscriber whose custom headers carry an
`Authorization` entry, the merged request headers bind `Authorization` to
the custom value, not the bearer token — the claim that custom headers
cannot override the authentication headers fails. -/
theorem C9_counterexample :
    hlookup (baseHeaders subBearerOverride) "Authorization" =
      some ("Bearer " ++ subBearerOverride.authToken) ∧
    hlookup (buildRequest subBearerOverride "x").headers "Authorization" =
      some "Basic intruder" ∧
    ("Basic intruder" : String) ≠
      "Bearer " ++ subBearerOverride.authToken := by
  decide

/-- C9 (amended): every outbound subscriber request is a POST carrying the
payload as JSON body to the subscriber's endpoint; before the custom-header
merge the headers bind `Content-Type: application/json`, a `User-Agent`
identifying the system, and the authentication header selected by the auth
kind (Basic, Bearer, or named API-key header); the subscriber's custom
headers are merged last and take precedence, overriding any earlier header
of the same name — including the authentication headers. -/
theorem C9_request_shape {α : Type} (sub : Subscriber) (payload : α) :
    (buildRequest sub payload).httpMethod = "POST" ∧
    (buildRequest sub payload).jsonBody = payload ∧
    (buildRequest sub payload).url = sub.endpointUrl ∧
    (buildRequest sub payload).timeoutSecs = sub.timeout ∧
    (sub.apiKeyHeader ≠ "Content-Type" →
      hlookup (baseHeaders sub) "Content-Type" =
        some "application/json") ∧
    (sub.apiKeyHeader ≠ "User-Agent" →
      hlookup (baseHeaders sub) "User-Agent" = some "Odoo-Webhook/1.0") ∧
    (sub.authType = "bearer" → sub.authToken ≠ "" →
      hlookup (baseHeaders sub) "Authorization" =
        some ("Bearer " ++ sub.authToken)) ∧
    (sub.authType = "api_key" → sub.apiKey ≠ "" →
      hlookup (baseHeaders sub) sub.apiKeyHeader = some sub.apiKey) ∧
    (sub.authType = "basic" → sub.authToken ≠ "" →
      hlookup (baseHeaders sub) "Authorization" =
        some ("Basic " ++ sub.authToken)) ∧
    (buildRequest sub payload).headers =
      mergeCustom (baseHeaders sub) sub.customHeaders ∧
    (∀ custom k v, sub.customHeaders = some custom →
      (custom.map Prod.fst).Nodup → (k, v) ∈ custom →
      hlookup (buildRequest sub payload).headers k = some v) := by
  refine ⟨rfl, rfl, rfl, rfl, ?_, ?_, ?_, ?_, ?_, rfl, ?_⟩
  · intro hna
    unfold baseHeaders
    split
    · rw [hlookup_setKey_other _ _ _ _ (by decide)]
      rfl
    · split
      · rw [hlookup_setKey_other _ _ _ _ hna]
        rfl
      · split
        · rw [hlookup_setKey_other _ _ _ _ (by decide)]
          rfl
        · rfl
  · intro hna
    unfold baseHeaders
    split
    · rw [hlookup_setKey_other _ _ _ _ (by decide)]
      rfl
    · split
      · rw [hlookup_setKey_other _ _ _ _ hna]
        rfl
      · split
        · rw [hlookup_setKey_other _ _ _ _ (by decide)]
          rfl
        · rfl
  · intro hta htok
    unfold baseHeaders
    rw [if_pos (by simp [hta, htok])]
    exact hlookup_setKey_self _ _ _
  · intro hta hkey
    unfold baseHeaders
    rw [if_neg (by simp [hta]), if_pos (by simp [hta, hkey])]
    exact hlookup_setKey_self _ _ _
  · intro hta htok
    unfold baseHeaders
    rw [if_neg (by simp [hta]), if_neg (by simp [hta]),
      if_pos (by simp [hta, htok])]
    exact hlookup_setKey_self _ _ _
  · intro custom k v hcust hnd hmem
    show hlookup (mergeCustom (baseHeaders sub) sub.customHeaders) k = some v
    rw [hcust]
    exact hlookup_foldl_override custom _ k v hnd hmem

/-- C9 witness: for the bearer subscriber, the request is a POST whose base
headers carry the bearer token, and the custom `Authorization` binding wins
the merge. -/
theorem C9_request_shape_witness :
    subBearerOverride.authType = "bearer" ∧
    subBearerOverride.authToken ≠ "" ∧
    (buildRequest subBearerOverride "x").httpMethod = "POST" ∧
    hlookup (baseHeaders subBearerOverride) "Authorization" =
      some ("Bearer " ++ subBearerOverride.authToken) ∧
    hlookup (buildRequest subBearerOverride "x").headers "Authorization" =
      some "Basic intruder" :=
  ⟨rfl, by decide,
   (C9_request_shape subBearerOverride "x").1,
   (C9_request_shape subBearerOverride "x").2.2.2.2.2.2.1 rfl (by decide),
   (C9_request_shape subBearerOverride "x").2.2.2.2.2.2.2.2.2.2
     [("Authorization", "Basic intruder")] "Authorization" "Basic intruder"
     rfl (by decide) (by decide)⟩

/-- Helper: field-level characterization of `pull_events` for a truthy
`limit`. -/
theorem pull_events_spec (s : UWStore) (lastEventId limit : Nat)
    (models : Option (List String)) (priority : Option String)
    (hlim : ¬ limit = 0) :
    (pull_events s lastEventId limit models priority).events =
      (s.rows.filter (pullMatch lastEventId models priority)).take limit ∧
    (pull_events s lastEventId limit models priority).count =
      ((s.rows.filter (pullMatch lastEventId models priority)).take
        limit).length ∧
    (((s.rows.filter (pullMatch lastEventId models priority)).take
        limit).getLast? = none →
      (pull_events s lastEventId limit models priority).lastId =
        lastEventId ∧
      (pull_events s lastEventId limit models priority).hasMore = false) ∧
    (∀ e, ((s.rows.filter (pullMatch lastEventId models priority)).take
        limit).getLast? = some e →
      (pull_events s lastEventId limit models priority).lastId = e.id ∧
      (pull_events s lastEventId limit models priority).hasMore =
        s.rows.any fun r =>
          decide (e.id < r.id) && !r.isProcessed && !r.isArchived) := by
  unfold pull_events
  dsimp only
  rw [if_neg hlim]
  cases hl : ((s.rows.filter (pullMatch lastEventId models priority)).take
      limit).getLast? with
  | none =>
    exact ⟨rfl, rfl, fun _ => ⟨rfl, rfl⟩, fun e he => nomatch he⟩
  | some e0 =>
    refine ⟨rfl, rfl, ?_, ?_⟩
    · intro h
      cases h
    · intro e he
      obtain rfl : e0 = e := by injection he
      exact ⟨rfl, rfl⟩

/-- Helper: in a strictly id-sorted list, every element's id is bounded by
the id of the last element. -/
theorem pairwise_id_le_getLast {l : List UWEvent}
    (hp : l.Pairwise (fun a b => a.id < b.id)) {e : UWEvent}
    (he : l.getLast? = some e) : ∀ a ∈ l, a.id ≤ e.id := by
  obtain ⟨ys, rfl⟩ := List.getLast?_eq_some_iff.1 he
  rw [List.pairwise_append] at hp
  intro a ha
  rcases List.mem_append.1 ha with hy | hz
  · exact Nat.le_of_lt (hp.2.2 a hy e (by simp))
  · have : a = e := by simpa using hz
    rw [this]

/-- C4 counterexample: on a store holding unprocessed rows
`(id=1, model=a)` and `(id=2, model=b)`, `pull_events(0, 5, models=[a])`
returns the single model-`a` row with `last_id = 1` yet reports
`has_more = true`, although no further row satisfying the model filter
exists — the claim that `has_more` honours the model/priority filters is
false. -/
theorem C4_counterexample :
    (pull_events twoModelStore 0 5 (some ["a"]) none).hasMore = true ∧
    (twoModelStore.rows.filter fun r =>
      pullMatch (pull_events twoModelStore 0 5 (some ["a"]) none).lastId
        (some ["a"]) none r) = [] := by
  decide

/-- C4 (amended): `pull_events(last_event_id, limit, models?, priority?)`
returns exactly the unprocessed, unarchived rows beyond `last_event_id`
satisfying the optional model/priority filters, in ascending id order,
capped at `limit`; `last_id` is the maximum id of the batch, echoing
`last_event_id` when the batch is empty; `count` is the batch size; and
`has_more` is true iff the batch is nonempty and some unprocessed,
unarchived row with `id > last_id` exists — the model/priority filters are
NOT applied to the `has_more` re-count. -/
theorem C4_pull_cursor (s : UWStore) (lastEventId limit : Nat)
    (models : Option (List String)) (priority : Option String)
    (hwf : s.WF) (hlim : 0 < limit) :
    (∀ e ∈ (pull_events s lastEventId limit models priority).events,
      e ∈ s.rows ∧ pullMatch lastEventId models priority e = true) ∧
    (pull_events s lastEventId limit models priority).events.length ≤
      limit ∧
    (pull_events s lastEventId limit models priority).events.Pairwise
      (fun a b => a.id < b.id) ∧
    ((pull_events s lastEventId limit models priority).events = [] →
      (pull_events s lastEventId limit models priority).lastId =
        lastEventId) ∧
    (∀ e ∈ (pull_events s lastEventId limit models priority).events,
      e.id ≤ (pull_events s lastEventId limit models priority).lastId) ∧
    ((pull_events s lastEventId limit models priority).events ≠ [] →
      ∃ e ∈ (pull_events s lastEventId limit models priority).events,
        e.id = (pull_events s lastEventId limit models priority).lastId) ∧
    (∀ r ∈ s.rows, pullMatch lastEventId models priority r = true →
      r.id ≤ (pull_events s lastEventId limit models priority).lastId →
      r ∈ (pull_events s lastEventId limit models priority).events) ∧
    ((pull_events s lastEventId limit models priority).hasMore = true ↔
      (pull_events s lastEventId limit models priority).events ≠ [] ∧
      ∃ r ∈ s.rows,
        (pull_events s lastEventId limit models priority).lastId < r.id ∧
        r.isProcessed = false ∧ r.isArchived = false) ∧
    (pull_events s lastEventId limit models priority).count =
      (pull_events s lastEventId limit models priority).events.length := by
  have hlim0 : ¬ limit = 0 := by omega
  obtain ⟨hev, hcount, hnone, hsome⟩ :=
    pull_events_spec s lastEventId limit models priority hlim0
  have hpw : ((s.rows.filter (pullMatch lastEventId models priority)).take
      limit).Pairwise (fun a b => a.id < b.id) :=
    List.Pairwise.sublist
      ((List.take_sublist limit _).trans (List.filter_sublist _)) hwf.1
  refine ⟨?_, ?_, ?_, ?_, ?_, ?_, ?_, ?_, ?_⟩
  · intro e he
    rw [hev] at he
    have hm := List.mem_of_mem_take he
    exact ⟨List.mem_of_mem_filter hm, List.of_mem_filter hm⟩
  · rw [hev, List.length_take]
    exact Nat.min_le_left _ _
  · rw [hev]
    exact hpw
  · intro hnil
    rw [hev] at hnil
    exact (hnone (by rw [hnil]; rfl)).1
  · intro e he
    rw [hev] at he
    cases hl : ((s.rows.filter (pullMatch lastEventId models
        priority)).take limit).getLast? with
    | none =>
      rw [List.getLast?_eq_none_iff.1 hl] at he
      cases he
    | some e0 =>
      rw [(hsome e0 hl).1]
      exact pairwise_id_le_getLast hpw hl e he
  · intro hne
    rw [hev] at hne
    cases hl : ((s.rows.filter (pullMatch lastEventId models
        priority)).take limit).getLast? with
    | none => exact absurd (List.getLast?_eq_none_iff.1 hl) hne
    | some e0 =>
      refine ⟨e0, ?_, (hsome e0 hl).1.symm⟩
      rw [hev]
      exact List.mem_of_getLast?_eq_some hl
  · intro r hr hm hle
    have hmem : r ∈ s.rows.filter (pullMatch lastEventId models priority) :=
      List.mem_filter.2 ⟨hr, hm⟩
    cases hl : ((s.rows.filter (pullMatch lastEventId models
        priority)).take limit).getLast? with
    | none =>
      exfalso
      have hnil := List.getLast?_eq_none_iff.1 hl
      rcases List.take_eq_nil_iff.1 hnil with h0 | h0
      · exact hlim0 h0
      · rw [h0] at hmem
        cases hmem
    | some e0 =>
      rw [(hsome e0 hl).1] at hle
      rw [hev]
      have hsplit := List.take_append_drop limit
        (s.rows.filter (pullMatch lastEventId models priority))
      have hpw' := hwf.1
      have hpwf : (s.rows.filter (pullMatch lastEventId models
          priority)).Pairwise (fun a b => a.id < b.id) :=
        List.Pairwise.sublist (List.filter_sublist _) hpw'
      rw [← hsplit, List.pairwise_append] at hpwf
      rw [← hsplit] at hmem
      rcases List.mem_append.1 hmem with htake | hdrop
      · exact htake
      · exfalso
        have := hpwf.2.2 e0 (List.mem_of_getLast?_eq_some hl) r hdrop
        omega
  · cases hl : ((s.rows.filter (pullMatch lastEventId models
        priority)).take limit).getLast? with
    | none =>
      obtain ⟨hli, hhm⟩ := hnone hl
      rw [hhm, hev, List.getLast?_eq_none_iff.1 hl]
      simp
    | some e0 =>
      obtain ⟨hli, hhm⟩ := hsome e0 hl
      rw [hhm, hli, hev]
      have hne : (s.rows.filter (pullMatch lastEventId models
          priority)).take limit ≠ [] := by
        intro h0
        rw [h0] at hl
        cases hl
      simp only [List.any_eq_true, Bool.and_eq_true, decide_eq_true_eq,
        Bool.not_eq_true', ne_eq, hne, not_false_eq_true, true_and]
      constructor
      · rintro ⟨r, hr, ⟨hid, hpr⟩, har⟩
        exact ⟨r, hr, hid, hpr, har⟩
      · rintro ⟨r, hr, hid, hpr, har⟩
        exact ⟨r, hr, ⟨hid, hpr⟩, har⟩
  · rw [hcount, hev]

/-- C4 witness: on the seven-event store, `pull_events(2, 3)` returns a
batch within the limit whose count matches, and its `has_more` agrees with
the unfiltered re-count beyond `last_id`. -/
theorem C4_pull_cursor_witness :
    UWStore.WF sevenStore ∧ (0 : Nat) < 3 ∧
    (pull_events sevenStore 2 3 none none).count =
      (pull_events sevenStore 2 3 none none).events.length ∧
    (pull_events sevenStore 2 3 none none).events.map (fun r => r.id) =
      [3, 4, 5] ∧
    (pull_events sevenStore 2 3 none none).lastId = 5 ∧
    (pull_events sevenStore 2 3 none none).hasMore = true :=
  ⟨by constructor <;> decide, by decide,
   (C4_pull_cursor sevenStore 2 3 none none
      ⟨by decide, by decide⟩ (by decide)).2.2.2.2.2.2.2.2,
   by decide, by decide, by decide⟩

end AutoWebhook
